import Mathlib

/-!
Verification development for the `host-openmrs-on-aws-fargate` CDK stack
(`openmrs_ecs/openmrs_ecs_stack.py`).  The stack is declarative resource
composition; the parts with real control content are:

* the TLS-material generation job (a shell script baked into an ECS task
  definition, method `_create_and_maintain_tls_materials`),
* the one-time data-seed job (`_perpare_data_efs_for_openmrs_service`),
* the bootstrap trigger lambdas and their scheduling/ordering edges,
* the secret shapes, consumer paths and the read-only analytics export mount.

Each definition below is a direct shallow embedding of the corresponding
Python construct; file/line references are given in the doc comments.
Shell strings are embedded with `\x27` for the single-quote character and
`\x7b`/`\x7d` for literal braces.
-/

namespace OpenmrsEcs

/-! ## The TLS generation script (`_create_and_maintain_tls_materials`, lines 862-871)

The ECS container runs `/bin/sh -c` on one `&&`-chained command string.  We
embed that string as the list of its commands, each parsed into a step of an
abstract file-system machine.  The script begins with
`cd /etc/ssl/certs/`, so the relative `mv` arguments resolve against that
directory; `resolvePath` performs exactly that resolution. -/

/-- Step of the shell script inside the SSL-maintenance container.
`installPkg` is `apk add` (with `--no-check-certificate` recorded in
`checkCertificates := false`); `genRsa` is `openssl genrsa <bits> > out`;
`selfSignCert` is `openssl req -new -x509 -nodes -sha256 -days <days> -key
<keyFile> -outform PEM -out <outFile> -subj <subject>`; `fetchUrl` is
`curl -o out url`, with `verifyPeer := false` when the `-k` (insecure) flag
is present; `rename` is `mv src dst`. -/
inductive SslStep where
  | installPkg (pkg : String) (checkCertificates : Bool)
  | chdir (dir : String)
  | genRsa (bits : Nat) (outFile : String)
  | selfSignCert (days : Nat) (subject : String) (keyFile outFile : String)
  | fetchUrl (url : String) (verifyPeer : Bool) (outFile : String)
  | rename (src dst : String)
  deriving DecidableEq, Repr

/-- Working directory established by the leading `cd /etc/ssl/certs/`. -/
def ssl_script_cwd : String := "/etc/ssl/certs/"

/-- Resolve a path the way the shell does after `cd /etc/ssl/certs/`:
absolute paths stand, relative ones live in the certs directory. -/
def resolvePath (p : String) : String :=
  if "/".data.isPrefixOf p.data then p else ssl_script_cwd ++ p

namespace CreateAndMaintainTlsMaterials

/-- The `command_array` script of the SSL-maintenance container
(source lines 862-871), step by step:
`apk add openssl --no-check-certificate --no-cache && cd /etc/ssl/certs/ &&
openssl genrsa 2048 > /etc/ssl/certs/selfsigned.key.pem.tmp &&
openssl req -new -x509 -nodes -sha256 -days 365 -key
/etc/ssl/certs/selfsigned.key.pem.tmp -outform PEM -out
/etc/ssl/certs/selfsigned.cert.pem.tmp -subj /CN=localhost &&
curl -k -o /etc/ssl/certs/mysqltmp.pem
https://truststore.pki.rds.amazonaws.com/global/global-bundle.pem &&
mv selfsigned.cert.pem.tmp cert.pem && mv selfsigned.key.pem.tmp privkey.pem
&& mv mysqltmp.pem mysql.pem`. -/
def command_array : List SslStep := [
  .installPkg "openssl" false,
  .chdir "/etc/ssl/certs/",
  .genRsa 2048 "/etc/ssl/certs/selfsigned.key.pem.tmp",
  .selfSignCert 365 "/CN=localhost" "/etc/ssl/certs/selfsigned.key.pem.tmp"
      "/etc/ssl/certs/selfsigned.cert.pem.tmp",
  .fetchUrl "https://truststore.pki.rds.amazonaws.com/global/global-bundle.pem" false
      "/etc/ssl/certs/mysqltmp.pem",
  .rename "selfsigned.cert.pem.tmp" "cert.pem",
  .rename "selfsigned.key.pem.tmp" "privkey.pem",
  .rename "mysqltmp.pem" "mysql.pem"]

end CreateAndMaintainTlsMaterials

/-- Content that a script step deposits in a file: the generated RSA key,
the self-signed certificate, or a file fetched from a URL. -/
inductive Artifact where
  | rsaKey (bits : Nat)
  | selfSignedCert (days : Nat) (subject : String)
  | fetchedFile (url : String)
  deriving DecidableEq, Repr

/-- The direct file write performed by a step (resolved path and content),
if any.  `rename` moves existing content and is not a direct write. -/
def stepWrites : SslStep → Option (String × Artifact)
  | .genRsa bits out => some (resolvePath out, .rsaKey bits)
  | .selfSignCert days subj _ out => some (resolvePath out, .selfSignedCert days subj)
  | .fetchUrl url _ out => some (resolvePath out, .fetchedFile url)
  | _ => none

/-- State of the mounted volume: path to content. -/
def FsState : Type := String → Option Artifact

/-- Execute one script step on the volume state.  `mv src dst` atomically
makes `dst` hold the content of `src` and removes `src`; if `src` is
missing nothing changes (the `&&` chain would abort there). -/
def execStep (fs : FsState) : SslStep → FsState
  | .installPkg _ _ => fs
  | .chdir _ => fs
  | .genRsa bits out =>
      fun n => if n = resolvePath out then some (.rsaKey bits) else fs n
  | .selfSignCert days subj _ out =>
      fun n => if n = resolvePath out then some (.selfSignedCert days subj) else fs n
  | .fetchUrl url _ out =>
      fun n => if n = resolvePath out then some (.fetchedFile url) else fs n
  | .rename src dst =>
      match fs (resolvePath src) with
      | some a => fun n =>
          if n = resolvePath dst then some a
          else if n = resolvePath src then none
          else fs n
      | none => fs

/-- Run a whole script on the volume. -/
def runScript (fs : FsState) (script : List SslStep) : FsState :=
  script.foldl execStep fs

/-- Resolved paths that the script writes to directly. -/
def writeTargets (script : List SslStep) : List String :=
  script.filterMap (fun s => (stepWrites s).map Prod.fst)

/-- The `(src, dst)` pairs of the rename steps, resolved. -/
def renamePairs (script : List SslStep) : List (String × String) :=
  script.filterMap (fun s => match s with
    | .rename a b => some (resolvePath a, resolvePath b)
    | _ => none)

/-- Final artifact names placed on the shared volume, as consumed by the
long-running service. -/
def final_artifact_names : List String := ["cert.pem", "privkey.pem", "mysql.pem"]

/-- The same names resolved in the certs directory. -/
def final_artifact_paths : List String := final_artifact_names.map resolvePath

/-- True when no direct write step of the script targets a final artifact
path (no in-place overwrite of a consumed file). -/
def noInPlaceOverwrite (script : List SslStep) : Bool :=
  (writeTargets script).all (fun t => !(final_artifact_paths.contains t))

/-- True when some step before index `i` directly writes path `p`. -/
def writtenBefore (script : List SslStep) (i : Nat) (p : String) : Bool :=
  (script.take i).any (fun s => (stepWrites s).map Prod.fst == some p)

/-- True when the script contains a rename into `f` whose source was
directly written by an earlier step: the write-temporary-then-rename
discipline for final name `f`. -/
def tmpThenRenameInto (script : List SslStep) (f : String) : Bool :=
  (List.range script.length).any (fun i =>
    match script[i]? with
    | some (.rename src dst) =>
        resolvePath dst == f && writtenBefore script i (resolvePath src)
    | _ => false)

/-- The command of the SSL task is baked into the ECS task definition
(there is no per-invocation command override in the generate lambda's
RunTask call), so every invocation `i` of the TLS job runs the very same
script. -/
def scriptForInvocation (_i : Nat) : List SslStep :=
  CreateAndMaintainTlsMaterials.command_array

/-- The temporary paths written by invocation `i` before its renames. -/
def tmpWriteTargetsOfInvocation (i : Nat) : List String :=
  writeTargets (scriptForInvocation i)

/-- Claim C3 as stated: distinct invocations of the TLS job write their
artifacts under temporary names unique to that invocation (no sharing). -/
def tmp_names_unique_per_invocation : Prop :=
  ∀ i j : Nat, i ≠ j →
    ∀ t, t ∈ tmpWriteTargetsOfInvocation i → t ∉ tmpWriteTargetsOfInvocation j

/-- Every fetch step of the script authenticates its peer (claim C4's
"fetch ... over an authenticated transport", i.e. no `-k`/insecure flag). -/
def fetchesAuthenticated (script : List SslStep) : Bool :=
  script.all (fun s => match s with
    | .fetchUrl _ verifyPeer _ => verifyPeer
    | _ => true)

/-! ## The provisioning dependency graph

CloudFormation starts a resource only after all its dependencies have
completed.  `dependsOn` records, for each construct of the stack, the
dependency edges the CDK code creates: the three explicit
`node.add_dependency` calls (lines 804, 1302, 1487) and the implicit
edges induced by cross-resource references (environment variables,
task-definition/cluster/load-balancer props, EFS volume configurations,
database credentials).  Edges point from a construct to what it waits
on. -/

/-- Constructs of the stack that take part in the bootstrap ordering. -/
inductive Construct where
  | dbInstance
  | ecsCluster
  | alb
  | webAcl
  | efsFileSystemForFileStorage
  | efsFileSystemForSslFolder
  | createSslMaterialsTask
  | writeOpenmrsDataToDataEfsTask
  | openmrsFargateTaskDefinition
  | createSslMaterialsLambda
  | regularSslScheduleRule
  | oneTimeCreateSslMaterialsLambda
  | oneTimeSyncOpenmrsDataToEfsLambda
  | openmrsFargateService
  deriving DecidableEq, Repr

/-- Direct dependency edges of the provisioning graph.  The only explicit
`add_dependency` on the OpenMRS service is the one on the one-time TLS
trigger (line 1302); the one-time data-seed trigger
(`OneTimeEFSDataSetup`, lines 1046-1062) is referenced by nothing the
service waits on. -/
def dependsOn : Construct → List Construct
  | .ecsCluster => [.dbInstance]
  | .webAcl => [.alb]
  | .createSslMaterialsTask => [.efsFileSystemForSslFolder]
  | .writeOpenmrsDataToDataEfsTask => [.efsFileSystemForFileStorage]
  | .openmrsFargateTaskDefinition =>
      [.efsFileSystemForFileStorage, .efsFileSystemForSslFolder, .dbInstance]
  | .createSslMaterialsLambda => [.ecsCluster, .createSslMaterialsTask]
  | .regularSslScheduleRule => [.createSslMaterialsLambda]
  | .oneTimeCreateSslMaterialsLambda => [.ecsCluster, .createSslMaterialsTask]
  | .oneTimeSyncOpenmrsDataToEfsLambda => [.ecsCluster, .writeOpenmrsDataToDataEfsTask]
  | .openmrsFargateService =>
      [.oneTimeCreateSslMaterialsLambda, .ecsCluster, .openmrsFargateTaskDefinition, .alb]
  | _ => []

/-- One closure step: everything the listed constructs depend on, plus
the constructs themselves. -/
def reachStep (xs : List Construct) : List Construct :=
  ((xs.map dependsOn).flatten ++ xs).dedup

/-- All constructs the given construct (transitively) waits on: iterate
the closure step as many times as there are constructs. -/
def transitiveDeps (c : Construct) : List Construct :=
  reachStep^[14] (dependsOn c)

/-! ## Bootstrap lambdas, triggers and the TLS refresh schedule -/

/-- A lambda function of the stack: handler, runtime, timeout and
environment as configured in the CDK code; `isDeployTimeTrigger` is true
for `triggers.TriggerFunction` (invoked once during provisioning and
awaited by CloudFormation) and false for plain `Function`. -/
structure LambdaFn where
  handler : String
  runtime : String
  timeoutMinutes : Nat
  environment : List (String × String)
  isDeployTimeTrigger : Bool
  deriving DecidableEq, Repr

/-- Deploy-time identifiers the TLS/seed lambdas receive as environment:
the ECS cluster, the task definition to run, and the network placement. -/
structure TaskRunInputs where
  ecsClusterArn : String
  taskDefinitionArn : String
  subnetIds : String
  securityGroupIds : String
  deriving DecidableEq, Repr

/-- Scheduled TLS-refresh lambda `MaintainSSLMaterialsLambda`
(lines 917-942): plain function invoked by the events rule. -/
def create_ssl_materials_lambda (inp : TaskRunInputs) : LambdaFn :=
  { handler := "lambda_functions.generate_ssl_materials"
    runtime := "PYTHON_3_13"
    timeoutMinutes := 10
    environment := [("ECS_CLUSTER", inp.ecsClusterArn),
                    ("TASK_DEFINITION", inp.taskDefinitionArn),
                    ("SUBNETS", inp.subnetIds),
                    ("SECURITY_GROUPS", inp.securityGroupIds)]
    isDeployTimeTrigger := false }

/-- One-time TLS setup trigger `OneTimeSSLSetup` (lines 952-969): a
`TriggerFunction` with the same handler and environment, run once before
the service starts. -/
def one_time_create_ssl_materials_lambda (inp : TaskRunInputs) : LambdaFn :=
  { handler := "lambda_functions.generate_ssl_materials"
    runtime := "PYTHON_3_13"
    timeoutMinutes := 10
    environment := [("ECS_CLUSTER", inp.ecsClusterArn),
                    ("TASK_DEFINITION", inp.taskDefinitionArn),
                    ("SUBNETS", inp.subnetIds),
                    ("SECURITY_GROUPS", inp.securityGroupIds)]
    isDeployTimeTrigger := true }

/-- One-time data-seed trigger `OneTimeEFSDataSetup` (lines 1046-1062). -/
def one_time_sync_openmrs_data_to_efs_lambda (inp : TaskRunInputs) : LambdaFn :=
  { handler := "lambda_functions.initial_openmrs_data_sync_to_efs"
    runtime := "PYTHON_3_13"
    timeoutMinutes := 10
    environment := [("ECS_CLUSTER", inp.ecsClusterArn),
                    ("TASK_DEFINITION", inp.taskDefinitionArn),
                    ("SUBNETS", inp.subnetIds),
                    ("SECURITY_GROUPS", inp.securityGroupIds)]
    isDeployTimeTrigger := true }

/-- One-time SMTP credential materialization trigger `SMTPSetup`
(lines 418-435). -/
def one_time_generate_smtp_credential_lambda
    (secretAccessKeyArn smtpPasswordArn : String) : LambdaFn :=
  { handler := "lambda_functions.generate_smtp_credential"
    runtime := "PYTHON_3_13"
    timeoutMinutes := 10
    environment := [("SECRET_ACCESS_KEY", secretAccessKeyArn),
                    ("SMTP_PASSWORD", smtpPasswordArn)]
    isDeployTimeTrigger := true }

/-- One-time receipt-rule-set activation trigger `MakeRuleSetActive`
(lines 600-611). -/
def set_rule_set_to_active (ruleSetName : String) : LambdaFn :=
  { handler := "lambda_functions.make_ruleset_active"
    runtime := "PYTHON_3_13"
    timeoutMinutes := 10
    environment := [("RULE_SET_NAME", ruleSetName)]
    isDeployTimeTrigger := true }

/-- Deployment-context flags that gate the mail subsystem
(`_configure_ses` runs only when a Route53 domain is configured and
`configure_ses` is "true", line 348). -/
structure SesContext where
  route53Domain : Bool
  configureSes : Bool
  deriving DecidableEq, Repr

/-- All bootstrap procedures the stack dispatches as one-time trigger
functions: the SES pair when the mail subsystem is built, and always the
one-time TLS setup and the one-time data seed. -/
def bootstrapTriggerFunctions (ses : SesContext) (tlsInp seedInp : TaskRunInputs)
    (secretAccessKeyArn smtpPasswordArn ruleSetName : String) : List LambdaFn :=
  (if ses.route53Domain && ses.configureSes then
    [one_time_generate_smtp_credential_lambda secretAccessKeyArn smtpPasswordArn,
     set_rule_set_to_active ruleSetName]
   else []) ++
  [one_time_create_ssl_materials_lambda tlsInp,
   one_time_sync_openmrs_data_to_efs_lambda seedInp]

/-- Outcome of one awaited job invocation. -/
inductive InvocationOutcome where
  | succeeded
  | failed
  deriving DecidableEq, Repr

/-- Modelled from the spec: the external job-execution service (AWS
Lambda, which runs each bootstrap procedure and is awaited by the
provisioning engine) kills an invocation that exceeds the function's
configured timeout and reports it failed; this enforcement is platform
behaviour, not code in this repository. -/
def invocationOutcome (fn : LambdaFn) (handlerSucceeded : Bool)
    (runMinutes : Nat) : InvocationOutcome :=
  if fn.timeoutMinutes < runMinutes then .failed
  else if handlerSucceeded then .succeeded else .failed

/-- Fixed regeneration period set in `__init__` (line 60): "by default
every 2 days new certs will be generated". -/
def number_of_days_to_regenerate_ssl_materials : Nat := 2

/-- An events rule with a rate schedule targeting a lambda. -/
structure ScheduleRule where
  periodDays : Nat
  target : LambdaFn
  deriving DecidableEq, Repr

/-- The recurring TLS-refresh rule `RegularScheduleforSSLMaintenance`
(lines 945-950): `Schedule.rate(Duration.days(number_of_days...))`
targeting the scheduled generate lambda.  The period is a provisioning
parameter baked into the rule; nothing at runtime reads or rewrites it. -/
def rule_to_run_on_regular_interval (days : Nat) (inp : TaskRunInputs) : ScheduleRule :=
  { periodDays := days, target := create_ssl_materials_lambda inp }

/-- The rule as instantiated by the stack, with the fixed default. -/
def stack_ssl_schedule (inp : TaskRunInputs) : ScheduleRule :=
  rule_to_run_on_regular_interval number_of_days_to_regenerate_ssl_materials inp

/-! ## Secrets (`_create_password` lines 195-205, `_create_db_instance`
lines 622-631, `_configure_ses` lines 405-416) -/

/-- The CDK `SecretStringGenerator`: a JSON template whose keys are fixed
literal entries, plus one key whose value is generated at creation. -/
structure SecretStringGeneratorSpec where
  excludePunctuation : Bool
  includeSpace : Bool
  secretStringTemplate : String
  generateStringKey : String
  deriving DecidableEq, Repr

/-- Value of a literal (non-generated) secret entry. -/
inductive SecretEntryValue where
  | accessKeySecretComponent (secretAccessKey : String)
  deriving DecidableEq, Repr

/-- A Secrets Manager secret as declared by the stack: either generated
from a template (`generator`) or built from literal entries
(`secret_object_value`). -/
structure SecretSpec where
  constructId : String
  generator : Option SecretStringGeneratorSpec
  literalEntries : List (String × SecretEntryValue)
  deriving DecidableEq, Repr

/-- An IAM access key: id plus the secret component, which is only
obtainable at creation time. -/
structure AccessKey where
  accessKeyId : String
  secretAccessKey : String
  deriving DecidableEq, Repr

/-- The `db-secret` (lines 622-631): username templated to "dbadmin",
password generated. -/
def db_secret : SecretSpec :=
  { constructId := "db-secret"
    generator := some
      { excludePunctuation := true
        includeSpace := false
        secretStringTemplate := "\x7b\"username\": \"dbadmin\"\x7d"
        generateStringKey := "password" }
    literalEntries := [] }

/-- The admin `Password` secret (lines 195-205): username templated to
"admin", password generated. -/
def password : SecretSpec :=
  { constructId := "Password"
    generator := some
      { excludePunctuation := true
        includeSpace := false
        secretStringTemplate := "\x7b\"username\": \"admin\"\x7d"
        generateStringKey := "password" }
    literalEntries := [] }

/-- The `secret-access-key` secret (lines 410-416): a single literal
entry `password` holding the freshly created access key's secret
component. -/
def secret_access_key (accessKey : AccessKey) : SecretSpec :=
  { constructId := "secret-access-key"
    generator := none
    literalEntries := [("password", .accessKeySecretComponent accessKey.secretAccessKey)] }

/-! ## Consumption of the TLS artifacts by the long-running service
(`_create_openmrs_service`) -/

/-- Substring containment on strings, via list infixes. -/
def strContainsP (s p : String) : Prop := p.data <:+: s.data

instance (s p : String) : Decidable (strContainsP s p) :=
  inferInstanceAs (Decidable (p.data <:+: s.data))

namespace CreateOpenmrsService

/-- Port the nginx gateway listens on (`self.gateway_container_port`,
line 54). -/
def gateway_container_port : Nat := 8082

/-- The gateway container's startup command (lines 1096-1103).  The
Python source joins these fragments with " && " inside one f-string
(whitespace from backslash line continuations elided); the
`gateway_container_port` interpolation is the `port` argument. -/
def gateway_command_parts (port : Nat) : List String := [
  "echo \x27127.0.0.1 frontend\x27 >> /etc/hosts",
  "echo \x27127.0.0.1 backend\x27 >> /etc/hosts",
  "sed \x27/  listen       80;/a\\  ssl_certificate_key       /etc/ssl/certs/privkey.pem;\x27 -i /etc/nginx/templates/default.conf.template",
  "sed \x27/  listen       80;/a\\  ssl_certificate       /etc/ssl/certs/cert.pem;\x27 -i /etc/nginx/templates/default.conf.template",
  "sed -i \x27s|listen       80;|listen       " ++ toString port ++ " ssl;|g\x27 /etc/nginx/templates/default.conf.template",
  "/docker-entrypoint.sh nginx \x27-g daemon off;\x27"]

/-- The backend's JDBC connection URL (lines 1155-1160), parametrized by
the cluster endpoint hostname and the MySQL port (whitespace introduced
by the Python line continuations elided). -/
def connection_url (hostname : String) (mysql_port : Nat) : String :=
  "jdbc:mysql://" ++ hostname ++ ":" ++ toString mysql_port ++
    "/openmrs?autoReconnect=true&useSSL=true&sessionVariables=default_storage_engine=InnoDB&useUnicode=true&characterEncoding=UTF-8&trustServerCertificate=true&verifyServerCertificate=false&trustCertificateKeyStoreUrl=file:/etc/ssl/certs/mysql.pem"

end CreateOpenmrsService

/-! ## The analytics EFS-to-S3 export task
(`_create_serverless_analytics_environment`, lines 1626-1675) -/

/-- An ECS mount point as declared in the CDK code. -/
structure MountPoint where
  containerPath : String
  readOnly : Bool
  sourceVolume : String
  deriving DecidableEq, Repr

namespace CreateServerlessAnalyticsEnvironment

/-- Mount point of the sync-EFS-to-S3 container (lines 1666-1670):
"Make read_only because we should not be writing here now; all we're
doing is copying from EFS to S3." -/
def efs_mount_point_for_data_storage : MountPoint :=
  { containerPath := "/openmrs/data/", readOnly := true, sourceVolume := "DataFolderVolume" }

/-- All mount points added to the export container (line 1673-1675). -/
def sync_efs_to_s3_container_mount_points : List MountPoint :=
  [efs_mount_point_for_data_storage]

/-- The export container's command (lines 1644-1645), parametrized by
the EFS export bucket name. -/
def command_array (bucketName : String) : List String :=
  ["yum install awscli -y && aws s3 sync /openmrs/data/ s3://" ++ bucketName]

end CreateServerlessAnalyticsEnvironment

/-- A write a container attempts against a mounted shared volume. -/
structure VolumeWrite where
  volume : String
  path : String
  content : String

/-- State of all shared volumes: volume name, then path, to content. -/
def VolumesState : Type := String → String → Option String

/-- Modelled OS semantics of ECS volume mounts: a write lands only when
the container has a read-write mount of the target volume; writes
through read-only mounts are rejected by the kernel. -/
def applyWrite (mounts : List MountPoint) (st : VolumesState) (w : VolumeWrite) :
    VolumesState :=
  if mounts.any (fun m => m.sourceVolume == w.volume && !m.readOnly) then
    fun v p => if v = w.volume ∧ p = w.path then some w.content else st v p
  else st

/-- Apply every write a container attempts during its run. -/
def runContainerWrites (mounts : List MountPoint) (ws : List VolumeWrite)
    (st : VolumesState) : VolumesState :=
  ws.foldl (applyWrite mounts) st

/-! ## Helper lemmas -/

theorem resolvePath_cert : resolvePath "cert.pem" = "/etc/ssl/certs/cert.pem" := by decide

theorem resolvePath_key : resolvePath "privkey.pem" = "/etc/ssl/certs/privkey.pem" := by decide

theorem resolvePath_mysql : resolvePath "mysql.pem" = "/etc/ssl/certs/mysql.pem" := by decide

theorem resolvePath_cert_tmp :
    resolvePath "selfsigned.cert.pem.tmp" = "/etc/ssl/certs/selfsigned.cert.pem.tmp" := by decide

theorem resolvePath_key_tmp :
    resolvePath "selfsigned.key.pem.tmp" = "/etc/ssl/certs/selfsigned.key.pem.tmp" := by decide

theorem resolvePath_mysql_tmp :
    resolvePath "mysqltmp.pem" = "/etc/ssl/certs/mysqltmp.pem" := by decide

theorem resolvePath_key_tmp_abs :
    resolvePath "/etc/ssl/certs/selfsigned.key.pem.tmp"
      = "/etc/ssl/certs/selfsigned.key.pem.tmp" := by decide

theorem resolvePath_cert_tmp_abs :
    resolvePath "/etc/ssl/certs/selfsigned.cert.pem.tmp"
      = "/etc/ssl/certs/selfsigned.cert.pem.tmp" := by decide

theorem resolvePath_mysql_tmp_abs :
    resolvePath "/etc/ssl/certs/mysqltmp.pem" = "/etc/ssl/certs/mysqltmp.pem" := by decide

/-- Running the TLS script leaves the newly generated artifacts under the
three final names, whatever the volume held before. -/
theorem runScript_command_array_finals (fs : FsState) :
    runScript fs CreateAndMaintainTlsMaterials.command_array "/etc/ssl/certs/cert.pem"
      = some (.selfSignedCert 365 "/CN=localhost") ∧
    runScript fs CreateAndMaintainTlsMaterials.command_array "/etc/ssl/certs/privkey.pem"
      = some (.rsaKey 2048) ∧
    runScript fs CreateAndMaintainTlsMaterials.command_array "/etc/ssl/certs/mysql.pem"
      = some (.fetchedFile "https://truststore.pki.rds.amazonaws.com/global/global-bundle.pem") := by
  refine ⟨?_, ?_, ?_⟩ <;>
    simp [runScript, CreateAndMaintainTlsMaterials.command_array, execStep,
      resolvePath_cert, resolvePath_key, resolvePath_mysql, resolvePath_cert_tmp,
      resolvePath_key_tmp, resolvePath_mysql_tmp, resolvePath_key_tmp_abs,
      resolvePath_cert_tmp_abs, resolvePath_mysql_tmp_abs]

/-- Substring containment extends along a left append. -/
theorem strContainsP_append_left (s t p : String) (h : strContainsP t p) :
    strContainsP (s ++ t) p := by
  unfold strContainsP at *
  have hd : (s ++ t).data = s.data ++ t.data := by
    simp [String.data_append]
  rw [hd]
  exact h.trans (List.suffix_append s.data t.data).isInfix

/-- A write attempted by the EFS-to-S3 export container never lands: its
only mount of the shared data volume is read-only. -/
theorem applyWrite_export_mounts (st : VolumesState) (w : VolumeWrite) :
    applyWrite CreateServerlessAnalyticsEnvironment.sync_efs_to_s3_container_mount_points st w
      = st := by
  simp [applyWrite, CreateServerlessAnalyticsEnvironment.sync_efs_to_s3_container_mount_points,
    CreateServerlessAnalyticsEnvironment.efs_mount_point_for_data_storage]

/-! ## Claim theorems -/

/-- C1 (code bug): in the provisioning graph the OpenMRS service waits on
the one-time TLS trigger (the explicit `add_dependency`, line 1302), but
the one-time data-seed trigger `OneTimeEFSDataSetup` is not among the
service's transitive dependencies, even though the comments at lines
971-978 and 1045 state the seed must have populated the EFS before the
OpenMRS containers start.  The third conjunct shows the computed
dependency set is closed, so no further iteration could add the seed
trigger. -/
theorem c1_seed_trigger_not_among_service_dependencies :
    Construct.oneTimeCreateSslMaterialsLambda
        ∈ transitiveDeps Construct.openmrsFargateService ∧
    Construct.oneTimeSyncOpenmrsDataToEfsLambda
        ∉ transitiveDeps Construct.openmrsFargateService ∧
    (reachStep (transitiveDeps Construct.openmrsFargateService)).all
      (fun c => (transitiveDeps Construct.openmrsFargateService).contains c) = true := by
  decide

/-- C2: every direct write of the TLS script targets a temporary name,
never one of the final names `cert.pem`, `privkey.pem`, `mysql.pem`; each
final name is produced by renaming a previously written temporary file;
and after the script completes all three final names hold the freshly
generated artifacts, regardless of the volume's prior contents. -/
theorem c2_tls_artifacts_written_tmp_then_renamed :
    noInPlaceOverwrite CreateAndMaintainTlsMaterials.command_array = true ∧
    final_artifact_paths.all
      (tmpThenRenameInto CreateAndMaintainTlsMaterials.command_array) = true ∧
    ∀ fs : FsState,
      runScript fs CreateAndMaintainTlsMaterials.command_array "/etc/ssl/certs/cert.pem"
          = some (.selfSignedCert 365 "/CN=localhost") ∧
      runScript fs CreateAndMaintainTlsMaterials.command_array "/etc/ssl/certs/privkey.pem"
          = some (.rsaKey 2048) ∧
      runScript fs CreateAndMaintainTlsMaterials.command_array "/etc/ssl/certs/mysql.pem"
          = some (.fetchedFile
              "https://truststore.pki.rds.amazonaws.com/global/global-bundle.pem") :=
  ⟨by decide, by decide, runScript_command_array_finals⟩

/-- C3 counterexample: the temporary names are NOT unique per invocation;
invocations 0 and 1 both write `/etc/ssl/certs/selfsigned.key.pem.tmp`,
because the script is baked unchanged into the task definition. -/
theorem c3_unique_tmp_names_refuted : ¬ tmp_names_unique_per_invocation := by
  intro h
  exact h 0 1 (by decide) "/etc/ssl/certs/selfsigned.key.pem.tmp" (by decide) (by decide)

/-- C3 amended: every invocation of the TLS job writes its artifacts
under the same fixed temporary names before the renames (so concurrent
runs share, rather than own, the temporary files), and for runs executed
one after the other the final names always end up holding the artifacts
of the last completed run. -/
theorem c3_fixed_tmp_names_and_sequential_last_wins :
    (∀ i j : Nat, tmpWriteTargetsOfInvocation i = tmpWriteTargetsOfInvocation j) ∧
    (∀ i : Nat, final_artifact_paths.all (tmpThenRenameInto (scriptForInvocation i)) = true) ∧
    ∀ fs : FsState,
      runScript (runScript fs CreateAndMaintainTlsMaterials.command_array)
          CreateAndMaintainTlsMaterials.command_array "/etc/ssl/certs/cert.pem"
        = some (.selfSignedCert 365 "/CN=localhost") ∧
      runScript (runScript fs CreateAndMaintainTlsMaterials.command_array)
          CreateAndMaintainTlsMaterials.command_array "/etc/ssl/certs/privkey.pem"
        = some (.rsaKey 2048) ∧
      runScript (runScript fs CreateAndMaintainTlsMaterials.command_array)
          CreateAndMaintainTlsMaterials.command_array "/etc/ssl/certs/mysql.pem"
        = some (.fetchedFile
            "https://truststore.pki.rds.amazonaws.com/global/global-bundle.pem") := by
  refine ⟨fun _ _ => rfl, fun i => ?_,
    fun fs => runScript_command_array_finals
      (runScript fs CreateAndMaintainTlsMaterials.command_array)⟩
  show final_artifact_paths.all
    (tmpThenRenameInto CreateAndMaintainTlsMaterials.command_array) = true
  decide

/-- C4 counterexample: the trust bundle is fetched with `curl -k`, i.e.
with peer verification disabled, so the transport is not authenticated. -/
theorem c4_trust_bundle_fetch_not_authenticated :
    SslStep.fetchUrl "https://truststore.pki.rds.amazonaws.com/global/global-bundle.pem"
        false "/etc/ssl/certs/mysqltmp.pem"
      ∈ CreateAndMaintainTlsMaterials.command_array ∧
    fetchesAuthenticated CreateAndMaintainTlsMaterials.command_array = false := by
  decide

/-- C4 amended: the job generates a 2048-bit RSA key, self-signs a
certificate valid 365 days with subject `CN=localhost`, and fetches the
database service's public trust bundle over HTTPS with certificate
verification disabled (`curl -k`); all three artifacts are written to
temporary filenames and then renamed into their final names, with no
in-place overwrite of a final name. -/
theorem c4_ssl_job_procedure :
    SslStep.genRsa 2048 "/etc/ssl/certs/selfsigned.key.pem.tmp"
      ∈ CreateAndMaintainTlsMaterials.command_array ∧
    SslStep.selfSignCert 365 "/CN=localhost" "/etc/ssl/certs/selfsigned.key.pem.tmp"
        "/etc/ssl/certs/selfsigned.cert.pem.tmp"
      ∈ CreateAndMaintainTlsMaterials.command_array ∧
    SslStep.fetchUrl "https://truststore.pki.rds.amazonaws.com/global/global-bundle.pem"
        false "/etc/ssl/certs/mysqltmp.pem"
      ∈ CreateAndMaintainTlsMaterials.command_array ∧
    noInPlaceOverwrite CreateAndMaintainTlsMaterials.command_array = true ∧
    final_artifact_paths.all
      (tmpThenRenameInto CreateAndMaintainTlsMaterials.command_array) = true := by
  decide

/-- C5: TLS regeneration is triggered once before the service's first
start (the one-time trigger is a deploy-time `TriggerFunction` and a
direct dependency of the service) and on a recurring schedule whose
period is the provisioning-time constant
`number_of_days_to_regenerate_ssl_materials = 2` days; the period of the
rule is a pure function of that provisioning parameter, so it is not
adjustable at runtime. -/
theorem c5_tls_schedule_two_days_fixed_at_provisioning :
    number_of_days_to_regenerate_ssl_materials = 2 ∧
    (∀ inp : TaskRunInputs, (stack_ssl_schedule inp).periodDays = 2) ∧
    (∀ (days : Nat) (inp : TaskRunInputs),
      (rule_to_run_on_regular_interval days inp).periodDays = days) ∧
    (∀ inp : TaskRunInputs,
      (one_time_create_ssl_materials_lambda inp).isDeployTimeTrigger = true) ∧
    Construct.oneTimeCreateSslMaterialsLambda
      ∈ dependsOn Construct.openmrsFargateService :=
  ⟨rfl, fun _ => rfl, fun _ _ => rfl, fun _ => rfl, by decide⟩

set_option maxRecDepth 4000 in
/-- C6: the TLS script's renames target exactly `cert.pem`,
`privkey.pem`, `mysql.pem` in `/etc/ssl/certs/`; the gateway command
configures nginx with `/etc/ssl/certs/cert.pem` and
`/etc/ssl/certs/privkey.pem`; and the backend's JDBC connection URL
references `/etc/ssl/certs/mysql.pem` as its trust store, for every
cluster hostname and port. -/
theorem c6_artifact_names_and_their_consumers :
    (renamePairs CreateAndMaintainTlsMaterials.command_array).map Prod.snd
      = ["/etc/ssl/certs/cert.pem", "/etc/ssl/certs/privkey.pem", "/etc/ssl/certs/mysql.pem"] ∧
    final_artifact_paths
      = ["/etc/ssl/certs/cert.pem", "/etc/ssl/certs/privkey.pem", "/etc/ssl/certs/mysql.pem"] ∧
    (∀ port : Nat,
      "sed \x27/  listen       80;/a\\  ssl_certificate       /etc/ssl/certs/cert.pem;\x27 -i /etc/nginx/templates/default.conf.template"
        ∈ CreateOpenmrsService.gateway_command_parts port ∧
      "sed \x27/  listen       80;/a\\  ssl_certificate_key       /etc/ssl/certs/privkey.pem;\x27 -i /etc/nginx/templates/default.conf.template"
        ∈ CreateOpenmrsService.gateway_command_parts port) ∧
    strContainsP
      "sed \x27/  listen       80;/a\\  ssl_certificate       /etc/ssl/certs/cert.pem;\x27 -i /etc/nginx/templates/default.conf.template"
      "/etc/ssl/certs/cert.pem" ∧
    strContainsP
      "sed \x27/  listen       80;/a\\  ssl_certificate_key       /etc/ssl/certs/privkey.pem;\x27 -i /etc/nginx/templates/default.conf.template"
      "/etc/ssl/certs/privkey.pem" ∧
    ∀ (hostname : String) (port : Nat),
      strContainsP (CreateOpenmrsService.connection_url hostname port)
        "trustCertificateKeyStoreUrl=file:/etc/ssl/certs/mysql.pem" := by
  refine ⟨by decide, by decide, ?_, by decide, by decide, ?_⟩
  · intro port
    constructor <;> simp [CreateOpenmrsService.gateway_command_parts]
  · intro hostname port
    exact strContainsP_append_left _ _ _ (by decide)

/-- C7: the `db-secret` holds a templated username ("dbadmin") plus a
generated `password`; the admin `Password` secret holds
username "admin" plus a generated `password`; and `secret-access-key`
holds exactly one entry `password` containing the freshly created access
key's secret component. -/
theorem c7_secret_shapes (ak : AccessKey) :
    db_secret.generator = some
      { excludePunctuation := true, includeSpace := false,
        secretStringTemplate := "\x7b\"username\": \"dbadmin\"\x7d",
        generateStringKey := "password" } ∧
    password.generator = some
      { excludePunctuation := true, includeSpace := false,
        secretStringTemplate := "\x7b\"username\": \"admin\"\x7d",
        generateStringKey := "password" } ∧
    (secret_access_key ak).literalEntries
      = [("password", .accessKeySecretComponent ak.secretAccessKey)] ∧
    (secret_access_key ak).generator = none ∧
    db_secret.constructId = "db-secret" ∧
    password.constructId = "Password" ∧
    (secret_access_key ak).constructId = "secret-access-key" :=
  ⟨rfl, rfl, rfl, rfl, rfl, rfl, rfl⟩

/-- C8: every bootstrap procedure the stack dispatches (one-time TLS
setup, data seed, SMTP credential materialization, rule-set activation)
is a deploy-time trigger function awaited by the provisioning engine with
a timeout of 10 minutes, and an invocation running longer than that is
reported failed. -/
theorem c8_bootstrap_triggers_ten_minute_timeout
    (ses : SesContext) (tlsInp seedInp : TaskRunInputs)
    (sakArn smtpArn rsName : String) (fn : LambdaFn)
    (h : fn ∈ bootstrapTriggerFunctions ses tlsInp seedInp sakArn smtpArn rsName) :
    fn.isDeployTimeTrigger = true ∧ fn.timeoutMinutes = 10 ∧
    ∀ (handlerSucceeded : Bool) (runMinutes : Nat), 10 < runMinutes →
      invocationOutcome fn handlerSucceeded runMinutes = .failed := by
  have key : ∀ g : LambdaFn, g.timeoutMinutes = 10 → g.isDeployTimeTrigger = true →
      g.isDeployTimeTrigger = true ∧ g.timeoutMinutes = 10 ∧
      ∀ (ok : Bool) (d : Nat), 10 < d → invocationOutcome g ok d = .failed := by
    intro g h10 htrig
    refine ⟨htrig, h10, ?_⟩
    intro ok d hd
    unfold invocationOutcome
    rw [h10, if_pos hd]
  unfold bootstrapTriggerFunctions at h
  split at h
  · simp only [List.cons_append, List.nil_append, List.mem_cons,
      List.not_mem_nil, or_false] at h
    rcases h with h | h | h | h <;> subst h <;> exact key _ rfl rfl
  · simp only [List.nil_append, List.mem_cons, List.not_mem_nil, or_false] at h
    rcases h with h | h <;> subst h <;> exact key _ rfl rfl

/-- Witness for C8 at a concrete deployment: the one-time TLS setup
trigger with concrete inputs is in the bootstrap list, has the 10-minute
timeout, and an 11-minute run is failed. -/
theorem c8_bootstrap_triggers_ten_minute_timeout_witness :
    (one_time_create_ssl_materials_lambda ⟨"c", "t", "s", "g"⟩).isDeployTimeTrigger = true ∧
    (one_time_create_ssl_materials_lambda ⟨"c", "t", "s", "g"⟩).timeoutMinutes = 10 ∧
    invocationOutcome (one_time_create_ssl_materials_lambda ⟨"c", "t", "s", "g"⟩) true 11
      = .failed := by
  have h := c8_bootstrap_triggers_ten_minute_timeout ⟨true, true⟩ ⟨"c", "t", "s", "g"⟩
    ⟨"c2", "t2", "s", "g"⟩ "sak" "smtp" "rules"
    (one_time_create_ssl_materials_lambda ⟨"c", "t", "s", "g"⟩) (by decide)
  exact ⟨h.1, h.2.1, h.2.2 true 11 (by decide)⟩

/-- C9: the EFS-to-S3 export container's only mount of the shared data
volume is read-only (at `/openmrs/data/`), so whatever writes the export
job attempts against the shared volumes, the volume state is unchanged;
only the object-storage side of the sync receives data. -/
theorem c9_export_task_leaves_shared_volume_unchanged :
    CreateServerlessAnalyticsEnvironment.efs_mount_point_for_data_storage.readOnly = true ∧
    CreateServerlessAnalyticsEnvironment.efs_mount_point_for_data_storage.containerPath
      = "/openmrs/data/" ∧
    CreateServerlessAnalyticsEnvironment.sync_efs_to_s3_container_mount_points.all
      (fun m => m.readOnly) = true ∧
    ∀ (ws : List VolumeWrite) (st : VolumesState),
      runContainerWrites CreateServerlessAnalyticsEnvironment.sync_efs_to_s3_container_mount_points
        ws st = st := by
  refine ⟨rfl, rfl, rfl, ?_⟩
  intro ws
  induction ws with
  | nil => intro st; rfl
  | cons w ws ih =>
      intro st
      show runContainerWrites _ ws (applyWrite _ st w) = st
      rw [applyWrite_export_mounts]
      exact ih st

/-- C10: the one-time pre-start TLS setup and the scheduled TLS refresh
lambda share the same handler, runtime, timeout and environment (ECS
cluster, task definition, subnets, security groups) whenever they are
built from the same deploy-time inputs — both trigger paths run the same
generation job, and the schedule rule targets exactly the scheduled
copy. -/
theorem c10_one_time_and_scheduled_paths_equivalent (inp : TaskRunInputs) :
    (one_time_create_ssl_materials_lambda inp).handler
      = (create_ssl_materials_lambda inp).handler ∧
    (one_time_create_ssl_materials_lambda inp).environment
      = (create_ssl_materials_lambda inp).environment ∧
    (one_time_create_ssl_materials_lambda inp).runtime
      = (create_ssl_materials_lambda inp).runtime ∧
    (one_time_create_ssl_materials_lambda inp).timeoutMinutes
      = (create_ssl_materials_lambda inp).timeoutMinutes ∧
    (create_ssl_materials_lambda inp).handler = "lambda_functions.generate_ssl_materials" ∧
    (stack_ssl_schedule inp).target = create_ssl_materials_lambda inp :=
  ⟨rfl, rfl, rfl, rfl, rfl, rfl⟩

end OpenmrsEcs
